import Mathlib

/-!
Shallow embedding of the webhook dispatch engine of
`src/services/webhookDispatcher.js` (the `codeflow` repository), together
with theorems settling the frozen claims about it.

Conventions of the embedding:
* JavaScript values flowing through the engine are modelled by `JsVal`
  (JSON-like: null / bool / number / string / array / object).  JS objects
  are association lists; assignment keeps the first occurrence's position
  and replaces its value, as JS property assignment does.
* Platform builtins that are not part of the repository (the WHATWG `URL`
  parser of Node and `JSON.parse`) are supplied as parameters of the modeled
  functions, bundled in `JsPlatform`; the theorems hold for every choice of
  these parameters.  Node's WHATWG parser serializes an IPv6 host in
  brackets, so `new URL("http://[fe80::1]/").hostname` is the string
  "[fe80::1]"; the repository's own `BLOCKED_HOSTNAMES` list (which carries
  both "::1" and "[::1]") relies on exactly this behaviour.
* `Handlebars.compile` is external to the repository as well; it is model ed
  from the spec (section 4.2): `\x7b\x7bpath\x7d\x7d` placeholders resolve
  dotted paths in the context, unresolved placeholders render as the empty
  string, and compiling a malformed template fails.
* The HTTP layer (`axios`) is modelled by an oracle `net : Nat → AxiosOutcome`
  giving the outcome of the n-th HTTP call of a dispatch; `validateStatus`
  is `() => true` in the source, so an HTTP response never raises: it is
  always an `AxiosOutcome.response`.
* Wall-clock quantities (`Date.now()` differences) are outside a pure model;
  per-attempt `executionTimeMs` is taken from the outcome oracle and the
  aggregate `totalExecutionTimeMs` is modelled as 0.
* JS numbers in the backoff computation are modelled as rationals (`ℚ`),
  with `Math.round x = ⌊x + 1/2⌋` and `Math.random () ∈ [0, 1)` a parameter.
-/

/-- JSON-like JavaScript values. -/
inductive JsVal where
  | null
  | bool (b : Bool)
  | num (q : ℚ)
  | str (s : String)
  | arr (items : List JsVal)
  | obj (fields : List (String × JsVal))

/-- JS `typeof v === 'object'`: true for objects, arrays and `null`. -/
def jsTypeofIsObject : JsVal → Bool
  | .null => true
  | .arr _ => true
  | .obj _ => true
  | _ => false

/-- JS truthiness of a value (`!v` is the negation of this). -/
def jsTruthy : JsVal → Bool
  | .null => false
  | .bool b => b
  | .num q => !(q == 0)
  | .str s => !(s == "")
  | .arr _ => true
  | .obj _ => true

/-- First binding of a key in an association list (JS object lookup; the
lists we build never carry duplicate keys, as JS objects cannot). -/
def lookupField (fields : List (String × JsVal)) (k : String) : Option JsVal :=
  match fields with
  | [] => none
  | (k', v) :: rest => if k' = k then some v else lookupField rest k

/-- JS property assignment `o[k] = v`: replace the value in place if the key
exists, otherwise append the new binding. -/
def setKey (fields : List (String × JsVal)) (kv : String × JsVal) :
    List (String × JsVal) :=
  if fields.any (fun p => p.1 = kv.1) then
    fields.map (fun p => if p.1 = kv.1 then (p.1, kv.2) else p)
  else
    fields ++ [kv]

/-- Lower-case a string (JS `String.prototype.toLowerCase` on ASCII). -/
def lowerStr (s : String) : String := String.mk (s.data.map Char.toLower)

/-- Upper-case a string (JS `String.prototype.toUpperCase` on ASCII). -/
def upperStr (s : String) : String := String.mk (s.data.map Char.toUpper)

/-- `needle` occurs as a contiguous substring of the character list. -/
def hasSubstrList (needle : List Char) : List Char → Bool
  | [] => needle.isEmpty
  | c :: t => needle.isPrefixOf (c :: t) || hasSubstrList needle t

/-- JS `hay.includes(needle)`. -/
def substrIn (needle hay : String) : Bool :=
  hasSubstrList needle.data hay.data

/-- `s.startsWith p`, as a structural character-list check. -/
def strStartsWith (s p : String) : Bool := p.data.isPrefixOf s.data

/-- Splitting on a separator character, keeping empty pieces
(`"a.b" to ["a","b"]`, `"a." to ["a",""]`). -/
def splitChAux (sep : Char) : List Char → List Char → List String
  | [], acc => [String.mk acc.reverse]
  | c :: rest, acc =>
    if c = sep then String.mk acc.reverse :: splitChAux sep rest []
    else splitChAux sep rest (c :: acc)

/-- `path.split('.')` (and `String.prototype.split` with separator "."). -/
def splitDot (s : String) : List String := splitChAux '.' s.data []

/-- Strip surrounding whitespace. -/
def trimStr (s : String) : String :=
  String.mk
    (((s.data.dropWhile Char.isWhitespace).reverse.dropWhile
        Char.isWhitespace).reverse)

/-- The string contains the character. -/
def strContainsChar (s : String) (c : Char) : Bool := s.data.contains c

/-! ## URL guard (`validateWebhookUrl`, webhookDispatcher.js lines 8-98)

Each entry of `BLOCKED_IP_PATTERNS` is embedded as a Boolean test with the
exact semantics of the JS regular expression it implements.  The tests are
applied, as in the source, to the already lower-cased hostname. -/

/-- Regex `^172\.(1[6-9]|2[0-9]|3[0-1])\.` (line 11). -/
def blocks172 (s : String) : Bool :=
  match s.data with
  | '1' :: '7' :: '2' :: '.' :: a :: b :: '.' :: _ =>
      (a = '1' && '6' ≤ b && b ≤ '9') ||
      (a = '2' && b.isDigit) ||
      (a = '3' && (b = '0' || b = '1'))
  | _ => false

/-- Tail of regex `^100\.(6[4-9]|[7-9][0-9]|1[0-2][0-7])\.` after "100."
(line 15).  Note the three-digit alternative `1[0-2][0-7]` does not cover
second octets 108, 109, 118 or 119 even though they lie in 100.64.0.0/10. -/
def cgnatTail : List Char → Bool
  | a :: b :: '.' :: _ =>
      (a = '6' && '4' ≤ b && b ≤ '9') || ('7' ≤ a && a ≤ '9' && b.isDigit)
  | a :: b :: c :: '.' :: _ =>
      a = '1' && '0' ≤ b && b ≤ '2' && '0' ≤ c && c ≤ '7'
  | _ => false

/-- Regex `^100\.(6[4-9]|[7-9][0-9]|1[0-2][0-7])\.` (line 15). -/
def blocksCgnat (s : String) : Bool :=
  match s.data with
  | '1' :: '0' :: '0' :: '.' :: rest => cgnatTail rest
  | _ => false

/-- The disjunction of the `BLOCKED_IP_PATTERNS` tests (lines 8-26), in
source order; the argument is the lower-cased hostname, so the two
case-insensitive IPv6 patterns reduce to plain matches. -/
def blockedIpPatternsMatch (s : String) : Bool :=
  strStartsWith s "127." ||            -- Loopback (127.0.0.0/8)
  strStartsWith s "10." ||             -- Private Class A (10.0.0.0/8)
  blocks172 s ||                    -- Private Class B (172.16.0.0/12)
  strStartsWith s "192.168." ||        -- Private Class C (192.168.0.0/16)
  strStartsWith s "169.254." ||        -- Link-local (169.254.0.0/16)
  strStartsWith s "0." ||              -- Current network (0.0.0.0/8)
  blocksCgnat s ||                  -- Carrier-grade NAT (100.64.0.0/10)
  strStartsWith s "192.0.0." ||        -- IETF Protocol Assignments
  strStartsWith s "192.0.2." ||        -- TEST-NET-1
  strStartsWith s "198.51.100." ||     -- TEST-NET-2
  strStartsWith s "203.0.113." ||      -- TEST-NET-3
  strStartsWith s "224." ||            -- Multicast (224.0.0.0/4)
  strStartsWith s "240." ||            -- Reserved (240.0.0.0/4)
  strStartsWith s "255." ||            -- Broadcast
  s = "::1" ||                      -- IPv6 loopback
  strStartsWith s "fc00:" ||           -- IPv6 unique local
  strStartsWith s "fe80:"              -- IPv6 link-local

/-- `BLOCKED_HOSTNAMES` (lines 31-41). -/
def BLOCKED_HOSTNAMES : List String :=
  ["localhost", "localhost.localdomain", "127.0.0.1", "0.0.0.0", "::1",
   "[::1]", "metadata.google.internal", "169.254.169.254",
   "metadata.azure.com"]

/-- Regex `^(\d{1,3})\.(\d{1,3})\.(\d{1,3})\.(\d{1,3})$` (line 73). -/
def isDottedQuad (s : String) : Bool :=
  let parts := splitDot s
  parts.length = 4 &&
    parts.all (fun p => 1 ≤ p.length && p.length ≤ 3 && p.data.all Char.isDigit)

/-- The result object of `validateWebhookUrl`. -/
structure VResult where
  valid : Bool
  error : Option String
deriving DecidableEq

/-- What Node's `new URL(...)` yields of a successfully parsed URL, in the
fields `validateWebhookUrl` reads.  `hostname` is as serialized by the
WHATWG parser: already lower-cased by the parser for registrable names, and
carrying the enclosing square brackets for an IPv6 host. -/
structure ParsedURL where
  protocol : String
  hostname : String
  username : String
  password : String

/-- Lines 60-97 of `validateWebhookUrl`: the checks performed after URL
parsing; `none` stands for a `new URL` throw (lines 54-58). -/
def validateWebhookUrlParsed (pu : Option ParsedURL) : VResult :=
  match pu with
  | none => ⟨false, some "Invalid URL format"⟩
  | some u =>
    if !(u.protocol = "http:" || u.protocol = "https:") then
      ⟨false, some ("Protocol '" ++ u.protocol ++
        "' is not allowed. Use http or https.")⟩
    else
      let hostname := lowerStr u.hostname
      if BLOCKED_HOSTNAMES.contains hostname then
        ⟨false, some ("Hostname '" ++ hostname ++
          "' is not allowed for security reasons")⟩
      else if isDottedQuad hostname && blockedIpPatternsMatch hostname then
        ⟨false, some ("IP address '" ++ hostname ++ "' is in a blocked range")⟩
      else if (strStartsWith hostname "[" || strContainsChar hostname ':') &&
          blockedIpPatternsMatch hostname then
        ⟨false, some ("IPv6 address '" ++ hostname ++ "' is in a blocked range")⟩
      else if !(u.username = "") || !(u.password = "") then
        ⟨false, some "URLs with embedded credentials are not allowed"⟩
      else
        ⟨true, none⟩

/-- `validateWebhookUrl` (lines 48-98): the guard on the URL string, with
the platform's URL parser supplied as `parseURL`; the empty string is the
only falsy JS string, covering the `!urlString` guard. -/
def validateWebhookUrl (parseURL : String → Option ParsedURL)
    (urlString : String) : VResult :=
  if urlString = "" then ⟨false, some "URL is required"⟩
  else validateWebhookUrlParsed (parseURL urlString)

/-- The dotted-quad hostname string of four octet values. -/
def ipv4String (a b c d : Nat) : String :=
  toString a ++ "." ++ toString b ++ "." ++ toString c ++ "." ++ toString d

/-- Written from the spec's words (section 4.1 and claim C1), not from the
source: the IPv4 ranges the spec says are rejected — private (10.0.0.0/8,
172.16.0.0/12, 192.168.0.0/16), loopback (127.0.0.0/8), link-local
(169.254.0.0/16), CGNAT (100.64.0.0/10), documentation (192.0.2.0/24,
198.51.100.0/24, 203.0.113.0/24), multicast (224.0.0.0/4) and reserved
(240.0.0.0/4). -/
def specBlockedIPv4Range (a b c _d : Nat) : Prop :=
  a = 10 ∨ (a = 172 ∧ 16 ≤ b ∧ b ≤ 31) ∨ (a = 192 ∧ b = 168) ∨
  a = 127 ∨ (a = 169 ∧ b = 254) ∨ (a = 100 ∧ 64 ≤ b ∧ b ≤ 127) ∨
  (a = 192 ∧ b = 0 ∧ c = 2) ∨ (a = 198 ∧ b = 51 ∧ c = 100) ∨
  (a = 203 ∧ b = 0 ∧ c = 113) ∨ (224 ≤ a ∧ a ≤ 239) ∨ (240 ≤ a ∧ a ≤ 255)

instance (a b c d : Nat) : Decidable (specBlockedIPv4Range a b c d) := by
  unfold specBlockedIPv4Range; infer_instance

/-- Written from the spec's words (section 4.1 and claim C3), not from the
source: an IPv6 address literal in fe80::/10 (link-local), written in the
usual lower-case hexadecimal form, starts with fe8, fe9, fea or feb. -/
def specIPv6LinkLocal (addr : String) : Prop :=
  strStartsWith (lowerStr addr) "fe8" = true ∨ strStartsWith (lowerStr addr) "fe9" = true ∨
  strStartsWith (lowerStr addr) "fea" = true ∨ strStartsWith (lowerStr addr) "feb" = true

instance (addr : String) : Decidable (specIPv6LinkLocal addr) := by
  unfold specIPv6LinkLocal; infer_instance

/-! ## Template renderer (`processTemplate`, lines 167-179)

`Handlebars.compile` is not code of this repository.  Modelled from the
spec: placeholders `\x7b\x7bpath\x7d\x7d` resolve dotted paths into the
context; an unresolved placeholder renders as the empty string; compiling a
malformed template (an unclosed placeholder) throws, which
`processTemplate` catches, returning the original template unchanged. -/

/-- A compiled template token: literal text or a placeholder path. -/
inductive Tok where
  | lit (s : String)
  | ph (path : String)

/-- The opening curly brace character. -/
def lbrace : Char := Char.ofNat 123

/-- The closing curly brace character. -/
def rbrace : Char := Char.ofNat 125

/-- Scan to the closing double brace; returns the enclosed content and the
remainder after it, or `none` when the placeholder is never closed. -/
def findCloseHB : List Char → Option (List Char × List Char)
  | [] => none
  | c :: rest =>
    if c = rbrace then
      match rest with
      | c2 :: rest2 =>
        if c2 = rbrace then some ([], rest2)
        else (findCloseHB rest).map fun p => (c :: p.1, p.2)
      | [] => none
    else (findCloseHB rest).map fun p => (c :: p.1, p.2)

/-- Fuel-driven tokenizer: splits a template into literal runs and
placeholders.  The fuel is an upper bound on recursion depth; callers pass
one more than the character count, which always suffices since every
recursive call drops at least one character. -/
def tokenizeHB : Nat → List Char → List Char → Except Unit (List Tok)
  | 0, _, _ => .error ()
  | _ + 1, [], acc => .ok [Tok.lit (String.mk acc.reverse)]
  | fuel + 1, c :: rest, acc =>
    if c = lbrace then
      match rest with
      | c2 :: rest2 =>
        if c2 = lbrace then
          match findCloseHB rest2 with
          | none => .error ()
          | some (content, rest3) =>
            match tokenizeHB fuel rest3 [] with
            | .error e => .error e
            | .ok toks =>
              .ok (Tok.lit (String.mk acc.reverse) ::
                   Tok.ph (trimStr (String.mk content)) :: toks)
        else tokenizeHB fuel (c2 :: rest2) (c :: acc)
      | [] => .ok [Tok.lit (String.mk (c :: acc).reverse)]
    else tokenizeHB fuel rest (c :: acc)

/-- Tokenize a template string. -/
def tokenizeTemplate (s : String) : Except Unit (List Tok) :=
  tokenizeHB (s.data.length + 1) s.data []

/-- Resolve a dotted path through nested context objects. -/
def lookupPathHB (ctx : JsVal) : List String → Option JsVal
  | [] => some ctx
  | seg :: rest =>
    match ctx with
    | .obj fields =>
      match lookupField fields seg with
      | some v => lookupPathHB v rest
      | none => none
    | _ => none

mutual

/-- String form of a resolved value (JS `String(v)`, with null/undefined
rendered empty as Handlebars does). -/
def renderVal : JsVal → String
  | .null => ""
  | .bool b => if b then "true" else "false"
  | .num q => toString q
  | .str s => s
  | .obj _ => "[object Object]"
  | .arr items => renderValList items

/-- Arrays stringify as their comma-joined items. -/
def renderValList : List JsVal → String
  | [] => ""
  | [v] => renderVal v
  | v :: rest => renderVal v ++ "," ++ renderValList rest

end

/-- Render one token against the context: a placeholder whose dotted path
has no value in the context renders as the empty string. -/
def renderTok (ctx : JsVal) : Tok → String
  | .lit s => s
  | .ph p =>
    match lookupPathHB ctx (splitDot p) with
    | some v => renderVal v
    | none => ""

/-- Render a token list against the context. -/
def renderToks (toks : List Tok) (ctx : JsVal) : String :=
  String.join (toks.map (renderTok ctx))

/-- `processTemplate` (lines 167-179): the empty string is the only falsy
JS string, covering the `!template` guard (non-string inputs, which the
source also passes through unchanged, are outside the `String` domain of
the model); a compile failure is caught and the original template is
returned unchanged. -/
def processTemplate (template : String) (ctx : JsVal) : String :=
  if template = "" then template
  else
    match tokenizeTemplate template with
    | .ok toks => renderToks toks ctx
    | .error _ => template

mutual

/-- Value transformation of one object entry of `processObjectTemplates`
(lines 196-205): string values are rendered; objects, arrays and `null`
(all of JS `typeof === 'object'`) recurse, `null` coming straight back
through the `!obj` guard; other values are kept. -/
def potFieldVal (ctx : JsVal) : JsVal → JsVal
  | .str s => .str (processTemplate s ctx)
  | .obj fs => .obj (potFields ctx fs)
  | .arr items => .arr (potArr ctx items)
  | v => v

/-- Transformation of one array item (line 193): each item goes through
`processObjectTemplates` itself, so string items come back unchanged (only
object fields of type string are rendered). -/
def potItemVal (ctx : JsVal) : JsVal → JsVal
  | .obj fs => .obj (potFields ctx fs)
  | .arr items => .arr (potArr ctx items)
  | v => v

/-- Entry-wise object processing of `processObjectTemplates`. -/
def potFields (ctx : JsVal) : List (String × JsVal) → List (String × JsVal)
  | [] => []
  | kv :: rest => (kv.1, potFieldVal ctx kv.2) :: potFields ctx rest

/-- Item-wise array processing of `processObjectTemplates`. -/
def potArr (ctx : JsVal) : List JsVal → List JsVal
  | [] => []
  | v :: rest => potItemVal ctx v :: potArr ctx rest

end

/-- `processObjectTemplates` (lines 187-207): non-objects (including
strings) pass through unchanged at the top level. -/
def processObjectTemplates (v : JsVal) (ctx : JsVal) : JsVal :=
  match v with
  | .obj fields => .obj (potFields ctx fields)
  | .arr items => .arr (potArr ctx items)
  | other => other

/-! ## Request builder (`executeSingleRequest`, lines 217-269) -/

/-- Platform builtins external to the repository, supplied as parameters:
Node's WHATWG URL parser and `JSON.parse` (returning `none` on a throw). -/
structure JsPlatform where
  parseURL : String → Option ParsedURL
  jsonParse : String → Option JsVal

/-- The webhook configuration object, in the fields the dispatcher reads. -/
structure DispatchConfig where
  url : String
  method : Option String := none
  headers : Option JsVal := none
  body : Option JsVal := none
  params : Option JsVal := none

/-- `(config.method || 'POST').toUpperCase()` (line 222); the empty string
is the falsy string. -/
def jsMethod (cfg : DispatchConfig) : String :=
  let m := cfg.method.getD ""
  upperStr (if m = "" then "POST" else m)

/-- Index-keyed bindings of spread array items. -/
def enumKeys (start : Nat) : List JsVal → List (String × JsVal)
  | [] => []
  | v :: rest => (toString start, v) :: enumKeys (start + 1) rest

/-- Index-keyed bindings of spread string characters. -/
def enumStrChars (start : Nat) : List Char → List (String × JsVal)
  | [] => []
  | c :: rest =>
      (toString start, JsVal.str (String.mk [c])) :: enumStrChars (start + 1) rest

/-- JS object spread `\x7b ...acc, ...v \x7d` of a value into accumulated
bindings: objects contribute their entries, arrays and strings contribute
index-keyed items, and primitives (including `null`) contribute nothing. -/
def objSpreadVal (acc : List (String × JsVal)) : JsVal → List (String × JsVal)
  | .obj fields => fields.foldl setKey acc
  | .arr items => (enumKeys 0 items).foldl setKey acc
  | .str s => (enumStrChars 0 s.data).foldl setKey acc
  | _ => acc

/-- Spread of a possibly-undefined value (spreading `undefined` adds
nothing). -/
def spreadOpt (acc : List (String × JsVal)) : Option JsVal → List (String × JsVal)
  | none => acc
  | some v => objSpreadVal acc v

/-- Lines 245-246: `config.params ? processObjectTemplates(config.params,
context) : undefined`. -/
def renderedParams (cfg : DispatchConfig) (ctx : JsVal) : Option JsVal :=
  match cfg.params with
  | some p => if jsTruthy p then some (processObjectTemplates p ctx) else none
  | none => none

/-- Lines 249-260: a string body is rendered and then JSON-parsed when
possible; a structured body is deep-rendered. -/
def resolveProcessedBody (P : JsPlatform) (b : JsVal) (ctx : JsVal) : JsVal :=
  match b with
  | .str s =>
    let processed := processTemplate s ctx
    (match P.jsonParse processed with
     | some v => v
     | none => .str processed)
  | other => processObjectTemplates other ctx

/-- The argument object handed to `axios` (lines 273-278), minus the
timeout and the constant `validateStatus`. -/
structure BuiltRequest where
  method : String
  url : String
  headers : List (String × JsVal)
  data : Option JsVal
  params : Option JsVal

/-- The default headers of line 238-240. -/
def defaultHeaders : List (String × JsVal) :=
  [("Content-Type", .str "application/json"),
   ("User-Agent", .str "CodeFlow/1.0")]

/-- Lines 237-269: build the concrete request.  For a truthy body: a GET
with a body of JS `typeof 'object'` sends no body and spreads the body over
the declared params; every other method carries the resolved body as
`data`. -/
def buildRequest (P : JsPlatform) (cfg : DispatchConfig) (ctx : JsVal) :
    BuiltRequest :=
  let url := processTemplate cfg.url ctx
  let method := jsMethod cfg
  let headers :=
    spreadOpt defaultHeaders (cfg.headers.map (fun h => processObjectTemplates h ctx))
  let params0 := renderedParams cfg ctx
  match cfg.body with
  | some b =>
    if jsTruthy b then
      let processedBody := resolveProcessedBody P b ctx
      if method = "GET" && jsTypeofIsObject processedBody then
        { method := method, url := url, headers := headers, data := none,
          params := some (.obj (objSpreadVal (spreadOpt [] params0) processedBody)) }
      else
        { method := method, url := url, headers := headers,
          data := some processedBody, params := params0 }
    else
      { method := method, url := url, headers := headers, data := none,
        params := params0 }
  | none =>
    { method := method, url := url, headers := headers, data := none,
      params := params0 }

/-- Lookup of a key among the query parameters of a built request. -/
def paramsGet (r : BuiltRequest) (k : String) : Option JsVal :=
  match r.params with
  | some (.obj fields) => lookupField fields k
  | _ => none

/-! ## Single-attempt executor (`executeSingleRequest`, lines 271-331) -/

/-- The classification of an attempt. -/
inductive RStatus where
  | success
  | error
  | timeout
deriving DecidableEq, BEq

/-- What the awaited `axios(...)` call did: resolved with a response of some
HTTP status (it never rejects on a status, `validateStatus` being
`() => true`), or rejected with an error carrying a code and a message. -/
inductive AxiosOutcome where
  | response (status : Nat) (data : JsVal) (elapsedMs : Nat)
  | failure (code : Option String) (message : String) (elapsedMs : Nat)

/-- The result object of `executeSingleRequest`.  `hasError` models whether
the JS result's `error` field holds an error object (`null` / absent
otherwise); `errorCode` models that error's `code` (also surfaced as the
result's `errorCode` on the non-timeout error path). -/
structure SingleResult where
  success : Bool
  status : RStatus
  httpStatusCode : Option Nat := none
  data : Option JsVal := none
  errorMessage : Option String := none
  errorCode : Option String := none
  hasError : Bool := false
  executionTimeMs : Nat := 0

/-- Lines 286-293: a string response payload is JSON-decoded when
possible. -/
def parseResponseData (P : JsPlatform) (d : JsVal) : JsVal :=
  match d with
  | .str s =>
    (match P.jsonParse s with
     | some v => v
     | none => .str s)
  | other => other

/-- Lines 283-331: classify the axios outcome.  No HTTP status throws;
success iff the status lies in [200, 300); a rejection with code
`ECONNABORTED` or a message containing "timeout" is a timeout. -/
def classifyAxios (P : JsPlatform) (timeout : Nat) : AxiosOutcome → SingleResult
  | .response status data elapsed =>
    let responseData := parseResponseData P data
    let isSuccess := decide (200 ≤ status) && decide (status < 300)
    { success := isSuccess,
      status := if isSuccess then .success else .error,
      httpStatusCode := some status, data := some responseData,
      executionTimeMs := elapsed, hasError := false }
  | .failure code message elapsed =>
    if code = some "ECONNABORTED" || substrIn "timeout" message then
      { success := false, status := .timeout,
        errorMessage :=
          some ("Request timed out after " ++ toString timeout ++ "ms"),
        executionTimeMs := elapsed, hasError := true, errorCode := code }
    else
      { success := false, status := .error, errorMessage := some message,
        errorCode := code, executionTimeMs := elapsed, hasError := true }

/-- `executeSingleRequest` (lines 217-332): render the URL, validate it
unless told not to, build the request (handed to axios, whose outcome is
the `outcome` oracle), and classify. -/
def executeSingleRequest (P : JsPlatform) (cfg : DispatchConfig) (ctx : JsVal)
    (timeout : Nat) (skipValidation : Bool) (outcome : AxiosOutcome) :
    SingleResult :=
  let url := processTemplate cfg.url ctx
  if !skipValidation && !(validateWebhookUrl P.parseURL url).valid then
    { success := false, status := .error,
      errorMessage := some ("URL validation failed: " ++
        ((validateWebhookUrl P.parseURL url).error.getD "")) }
  else
    let _req := buildRequest P cfg ctx
    classifyAxios P timeout outcome

/-! ## Retry orchestrator (`executeWebhook`, lines 103-159 and 342-426) -/

/-- The retry configuration record. -/
structure RetryConfig where
  maxRetries : Nat
  initialDelayMs : ℚ
  maxDelayMs : ℚ
  backoffMultiplier : ℚ
  retryableStatusCodes : List Nat
  retryableErrors : List String

/-- `DEFAULT_RETRY_CONFIG` (lines 103-110). -/
def DEFAULT_RETRY_CONFIG : RetryConfig :=
  { maxRetries := 3, initialDelayMs := 1000, maxDelayMs := 10000,
    backoffMultiplier := 2,
    retryableStatusCodes := [408, 429, 500, 502, 503, 504],
    retryableErrors :=
      ["ECONNRESET", "ETIMEDOUT", "ECONNABORTED", "ENOTFOUND", "EAI_AGAIN"] }

/-- A caller-supplied partial retry configuration (absent keys are taken
from the defaults by the spread on lines 363-366). -/
structure RetryOverride where
  maxRetries : Option Nat := none
  initialDelayMs : Option ℚ := none
  maxDelayMs : Option ℚ := none
  backoffMultiplier : Option ℚ := none
  retryableStatusCodes : Option (List Nat) := none
  retryableErrors : Option (List String) := none

/-- Lines 363-366: `\x7b ...DEFAULT_RETRY_CONFIG, ...retryConfig \x7d`. -/
def mergeRetryConfig (o : RetryOverride) : RetryConfig :=
  { maxRetries := o.maxRetries.getD DEFAULT_RETRY_CONFIG.maxRetries,
    initialDelayMs := o.initialDelayMs.getD DEFAULT_RETRY_CONFIG.initialDelayMs,
    maxDelayMs := o.maxDelayMs.getD DEFAULT_RETRY_CONFIG.maxDelayMs,
    backoffMultiplier :=
      o.backoffMultiplier.getD DEFAULT_RETRY_CONFIG.backoffMultiplier,
    retryableStatusCodes :=
      o.retryableStatusCodes.getD DEFAULT_RETRY_CONFIG.retryableStatusCodes,
    retryableErrors := o.retryableErrors.getD DEFAULT_RETRY_CONFIG.retryableErrors }

/-- `calculateBackoffDelay` (lines 127-133) over rationals: `rand` is the
`Math.random()` draw in [0, 1), and `Math.round x = ⌊x + 1/2⌋`. -/
def calculateBackoffDelay (attempt : Nat) (config : RetryConfig) (rand : ℚ) : ℤ :=
  let exponentialDelay := config.initialDelayMs * config.backoffMultiplier ^ attempt
  let cappedDelay := min exponentialDelay config.maxDelayMs
  let jitter := cappedDelay * (1 / 4) * (rand * 2 - 1)
  ⌊cappedDelay + jitter + 1 / 2⌋

/-- `isRetryable` (lines 142-159); the `error` argument of the source is
the result's own `error` object, modelled by `hasError` / `errorCode`. -/
def isRetryable (result : SingleResult) (config : RetryConfig) : Bool :=
  (result.hasError &&
    (match result.errorCode with
     | some c => config.retryableErrors.contains c
     | none => false)) ||
  (match result.httpStatusCode with
   | some n => !(n = 0) && config.retryableStatusCodes.contains n
   | none => false) ||
  result.status == .timeout

/-- One entry of the attempt history (lines 388-394). -/
structure AttemptRecord where
  attempt : Nat
  status : RStatus
  httpStatusCode : Option Nat
  executionTimeMs : Nat
  errorMessage : Option String
deriving DecidableEq

/-- The record pushed for the 0-based attempt index. -/
def mkAttemptRecord (attemptIdx : Nat) (r : SingleResult) : AttemptRecord :=
  { attempt := attemptIdx + 1, status := r.status,
    httpStatusCode := r.httpStatusCode, executionTimeMs := r.executionTimeMs,
    errorMessage := r.errorMessage }

/-- The result object of `executeWebhook`.  JS fields that some return
paths simply do not set (`attempts`, `retriesUsed`, `maxRetriesReached`,
`totalExecutionTimeMs`) are `Option`s, `none` meaning absent/undefined. -/
structure WebhookResult where
  success : Bool
  status : RStatus
  httpStatusCode : Option Nat := none
  data : Option JsVal := none
  errorMessage : Option String := none
  errorCode : Option String := none
  hasError : Bool := false
  executionTimeMs : Nat := 0
  totalExecutionTimeMs : Option Nat := none
  attempts : Option (List AttemptRecord) := none
  retriesUsed : Option Nat := none
  maxRetriesReached : Option Bool := none

/-- Spread of a `SingleResult` into a webhook result
(`\x7b ...result \x7d`): no attempt-history fields are added. -/
def spreadSingle (r : SingleResult) : WebhookResult :=
  { success := r.success, status := r.status,
    httpStatusCode := r.httpStatusCode, data := r.data,
    errorMessage := r.errorMessage, errorCode := r.errorCode,
    hasError := r.hasError, executionTimeMs := r.executionTimeMs }

/-- Lines 419-425: the return after the loop breaks or is exhausted;
`totalExecutionTimeMs` is wall clock, modelled as 0.  (`last` is `none`
only if the loop body never ran, which cannot happen; JS would spread
`null` there, adding nothing.) -/
def finalReturn (retry : RetryConfig) (last : Option SingleResult)
    (attempts : List AttemptRecord) : WebhookResult :=
  let base :=
    match last with
    | some r => spreadSingle r
    | none => { success := false, status := .error }
  { base with
    totalExecutionTimeMs := some 0, attempts := some attempts,
    retriesUsed := some (attempts.length - 1),
    maxRetriesReached := some (decide (retry.maxRetries < attempts.length)) }

/-- The `for` loop of lines 376-416, as recursion on the remaining
iteration budget (`fuel` starts at `maxRetries + 1`, matching
`attempt = 0..maxRetries`).  The pre-attempt backoff sleep
(`calculateBackoffDelay (attempt - 1)` then `sleep`) affects timing only
and leaves no trace in the result. -/
def executeWebhookLoop (retry : RetryConfig) (single : Nat → SingleResult) :
    Nat → Nat → List AttemptRecord → Option SingleResult → WebhookResult
  | 0, _, attempts, last => finalReturn retry last attempts
  | fuel + 1, attempt, attempts, _ =>
    let result := single attempt
    let attempts2 := attempts ++ [mkAttemptRecord attempt result]
    if result.success then
      { spreadSingle result with
        totalExecutionTimeMs := some 0,
        attempts := some attempts2, retriesUsed := some attempt }
    else if attempt < retry.maxRetries && isRetryable result retry then
      executeWebhookLoop retry single fuel (attempt + 1) attempts2 (some result)
    else
      finalReturn retry (some result) attempts2

/-- `executeWebhook` (lines 342-426): validate the rendered URL once; on
failure return immediately with an empty attempt list; with
`maxRetries = 0` return the bare single-attempt result (no attempt-history
fields); otherwise run the retry loop.  `net n` is the axios outcome of the
n-th HTTP call of this dispatch. -/
def executeWebhook (P : JsPlatform) (cfg : DispatchConfig) (ctx : JsVal)
    (timeout : Nat) (retryOverride : RetryOverride)
    (net : Nat → AxiosOutcome) : WebhookResult :=
  let processedUrl := processTemplate cfg.url ctx
  let urlValidation := validateWebhookUrl P.parseURL processedUrl
  if !urlValidation.valid then
    { success := false, status := .error,
      errorMessage := some ("URL validation failed: " ++
        (urlValidation.error.getD "")),
      executionTimeMs := 0, totalExecutionTimeMs := some 0,
      attempts := some [], retriesUsed := some 0 }
  else
    let retry := mergeRetryConfig retryOverride
    if retry.maxRetries = 0 then
      spreadSingle (executeSingleRequest P cfg ctx timeout true (net 0))
    else
      executeWebhookLoop retry
        (fun n => executeSingleRequest P cfg ctx timeout true (net n))
        (retry.maxRetries + 1) 0 [] none

/-! ## Response extractor (`extractOutputFields` / `getValueByPath`,
lines 434-488) -/

/-- A character of the regex class `\w`. -/
def wordChar (c : Char) : Bool := c.isAlphanum || c = '_'

/-- Decimal value of a digit run (`parseInt(d, 10)` on matched digits). -/
def digitsToNat (ds : List Char) : Nat :=
  ds.foldl (fun n c => n * 10 + (c.toNat - 48)) 0

/-- Regex `^(\w+)\[(\d+)\]$` (line 474): a name, an opening bracket, a
digit run, a closing bracket, end. -/
def parseArraySeg (part : String) : Option (String × Nat) :=
  let sp := part.data.span wordChar
  match sp.1, sp.2 with
  | [], _ => none
  | nm, '[' :: rest2 =>
    let sp2 := rest2.span Char.isDigit
    (match sp2.1, sp2.2 with
     | [], _ => none
     | ds, [']'] => some (String.mk nm, digitsToNat ds)
     | _, _ => none)
  | _, _ => none

/-- A canonical array index as JS sees a plain property key: digits with no
leading zero. -/
def canonicalIndex (k : String) : Option Nat :=
  match k.data with
  | [] => none
  | ['0'] => some 0
  | c :: rest =>
    if c = '0' then none
    else if (c :: rest).all Char.isDigit then some (digitsToNat (c :: rest))
    else none

/-- JS property access `v[key]` for the value kinds a path walk can meet:
object fields, array elements (plus `length`), string characters (plus
`length`); anything else yields undefined. -/
def jsAccess (v : JsVal) (key : String) : Option JsVal :=
  match v with
  | .obj fields => lookupField fields key
  | .arr items =>
    if key = "length" then some (.num items.length)
    else
      (match canonicalIndex key with
       | some i => items.get? i
       | none => none)
  | .str s =>
    if key = "length" then some (.num s.data.length)
    else
      (match canonicalIndex key with
       | some i => (s.data.get? i).map (fun c => .str (String.mk [c]))
       | none => none)
  | _ => none

/-- The part-by-part walk of `getValueByPath` (lines 468-485): `none` is JS
undefined; a `null` or undefined current value short-circuits to undefined
while parts remain; a bracket segment must reach an array after its name
lookup or the whole walk yields undefined. -/
def gvpGo : List String → Option JsVal → Option JsVal
  | [], cur => cur
  | _ :: _, none => none
  | _ :: _, some .null => none
  | part :: rest, some v =>
    match parseArraySeg part with
    | some (name, idx) =>
      (match jsAccess v name with
       | some (.arr items) => gvpGo rest (items.get? idx)
       | _ => none)
    | none => gvpGo rest (jsAccess v part)

/-- `getValueByPath` (lines 464-488). -/
def getValueByPath (obj : JsVal) (path : String) : Option JsVal :=
  gvpGo (splitDot path) (some obj)

/-- One output mapping (`\x7b outputFieldName, jsonPath \x7d`). -/
structure OutputMapping where
  outputFieldName : String
  jsonPath : String

/-- The `response` argument of `extractOutputFields`, reduced to the only
field it reads; `data := none` models an absent/undefined `data`. -/
structure ExtractResponse where
  data : Option JsVal := none

/-- The loop body of lines 441-453: a falsy (empty) `jsonPath` is skipped,
an undefined extracted value contributes nothing, anything else (including
`null`) is assigned to the output key. -/
def extractStep (d : JsVal) (outputs : List (String × JsVal))
    (m : OutputMapping) : List (String × JsVal) :=
  if m.jsonPath = "" then outputs
  else
    match getValueByPath d m.jsonPath with
    | some v => setKey outputs (m.outputFieldName, v)
    | none => outputs

/-- `extractOutputFields` (lines 434-456); the `!outputMappings` guard is
for a null/undefined mappings argument, which the `List` domain excludes,
and `!response.data` is JS falsiness of the data value. -/
def extractOutputFields (response : ExtractResponse)
    (outputMappings : List OutputMapping) : List (String × JsVal) :=
  match response.data with
  | none => []
  | some d =>
    if jsTruthy d then outputMappings.foldl (extractStep d) [] else []

/-! ## Statement helpers and concrete instances used by the theorems -/

/-- The HTTP status of an axios outcome, `none` for a rejection. -/
def respStatus : AxiosOutcome → Option Nat
  | .response s _ _ => some s
  | .failure _ _ _ => none

/-- A platform whose URL parser resolves every string to the host
`example.com` (standing in for Node's parser on such a URL) and whose
`JSON.parse` always throws. -/
def examplePlatform : JsPlatform :=
  ⟨fun _ => some ⟨"http:", "example.com", "", ""⟩, fun _ => none⟩

/-- A minimal dispatch configuration with a placeholder-free URL. -/
def exampleConfig : DispatchConfig := { url := "http://example.com/hook" }

/-- A GET configuration carrying both declared params and a structured
body, with the key "k" present in both. -/
def exampleGetConfig : DispatchConfig :=
  { url := "http://example.com/hook", method := some "get",
    body := some (.obj [("k", .str "bodyv"), ("b2", .num 2)]),
    params := some (.obj [("k", .str "paramv"), ("p1", .num 1)]) }

/-- A retry configuration with a small `initialDelayMs`, exhibiting the
rounding slack of the jittered backoff. -/
def exampleBackoffConfig : RetryConfig :=
  { maxRetries := 3, initialDelayMs := 3, maxDelayMs := 10,
    backoffMultiplier := 2,
    retryableStatusCodes := [408, 429, 500, 502, 503, 504],
    retryableErrors := ["ECONNRESET"] }

/-- The context of the spec's template example. -/
def exampleContext : JsVal := .obj [("object", .obj [("name", .str "Acme")])]

/-- The response of the spec's extraction example. -/
def exampleExtractResponse : ExtractResponse :=
  ⟨some (.obj [("user", .obj [("tags", .arr [.str "a", .str "b"])])])⟩

/-! ## Shared lemmas -/

/-- Unfolding of `lookupField` at a cons cell. -/
theorem lookupField_cons (k1 : String) (v1 : JsVal)
    (tl : List (String × JsVal)) (k : String) :
    lookupField ((k1, v1) :: tl) k = if k1 = k then some v1 else lookupField tl k := rfl

theorem lookupField_map_setval (tl : List (String × JsVal)) (k : String)
    (v : JsVal) :
    lookupField (tl.map fun p => if p.1 = k then (p.1, v) else p) k =
      (lookupField tl k).map fun _ => v := by
  induction tl with
  | nil => rfl
  | cons hd tl ih =>
    obtain ⟨k1, v1⟩ := hd
    rw [List.map_cons,
      show (if (k1, v1).1 = k then ((k1, v1).1, v) else (k1, v1)) =
        (if k1 = k then (k1, v) else (k1, v1)) from rfl]
    by_cases hk : k1 = k
    · rw [if_pos hk, lookupField_cons, lookupField_cons, if_pos hk, if_pos hk]
      rfl
    · rw [if_neg hk, lookupField_cons, lookupField_cons, if_neg hk, if_neg hk, ih]

theorem lookupField_map_setval_ne (tl : List (String × JsVal)) (k0 : String)
    (v : JsVal) (k : String) (h : k0 ≠ k) :
    lookupField (tl.map fun p => if p.1 = k0 then (p.1, v) else p) k =
      lookupField tl k := by
  induction tl with
  | nil => rfl
  | cons hd tl ih =>
    obtain ⟨k1, v1⟩ := hd
    rw [List.map_cons,
      show (if (k1, v1).1 = k0 then ((k1, v1).1, v) else (k1, v1)) =
        (if k1 = k0 then (k1, v) else (k1, v1)) from rfl]
    by_cases hk : k1 = k0
    · have hne : ¬k1 = k := fun he => h (hk ▸ he)
      rw [if_pos hk, lookupField_cons, lookupField_cons, if_neg hne, if_neg hne, ih]
    · rw [if_neg hk, lookupField_cons, lookupField_cons, ih]

theorem lookupField_append_single (tl : List (String × JsVal)) (k0 : String)
    (v : JsVal) (k : String) :
    lookupField (tl ++ [(k0, v)]) k =
      (match lookupField tl k with
       | some w => some w
       | none => if k0 = k then some v else none) := by
  induction tl with
  | nil => simp [lookupField]
  | cons hd tl ih =>
    obtain ⟨k1, v1⟩ := hd
    rw [List.cons_append, lookupField_cons, lookupField_cons]
    by_cases he : k1 = k
    · rw [if_pos he, if_pos he]
    · rw [if_neg he, if_neg he, ih]

theorem lookupField_of_not_mem (fs : List (String × JsVal)) (k : String)
    (h : k ∉ fs.map Prod.fst) : lookupField fs k = none := by
  induction fs with
  | nil => rfl
  | cons hd tl ih =>
    obtain ⟨k1, v1⟩ := hd
    simp only [List.map_cons, List.mem_cons] at h
    push_neg at h
    rw [lookupField_cons, if_neg (fun he => h.1 he.symm)]
    exact ih h.2

theorem lookupField_isSome_of_any (fs : List (String × JsVal)) (k : String)
    (h : (fs.any fun p => decide (p.1 = k)) = true) :
    ∃ w, lookupField fs k = some w := by
  induction fs with
  | nil => simp at h
  | cons hd tl ih =>
    obtain ⟨k1, v1⟩ := hd
    by_cases hk : k1 = k
    · exact ⟨v1, by rw [lookupField_cons, if_pos hk]⟩
    · simp only [List.any_cons, Bool.or_eq_true_iff] at h
      rcases h with h1 | h1
      · exact absurd (of_decide_eq_true h1) hk
      · obtain ⟨w, hw⟩ := ih h1
        exact ⟨w, by rw [lookupField_cons, if_neg hk]; exact hw⟩

theorem not_mem_keys_of_not_any (fs : List (String × JsVal)) (k : String)
    (h : ¬(fs.any fun p => decide (p.1 = k)) = true) :
    k ∉ fs.map Prod.fst := by
  intro hmem
  apply h
  simp only [List.any_eq_true]
  obtain ⟨p, hp, hpk⟩ := List.mem_map.mp hmem
  exact ⟨p, hp, by simp [hpk]⟩

theorem lookupField_setKey_same (acc : List (String × JsVal)) (k : String)
    (v : JsVal) : lookupField (setKey acc (k, v)) k = some v := by
  unfold setKey
  by_cases h : (acc.any fun p => decide (p.1 = k)) = true
  · rw [if_pos h]
    obtain ⟨w, hw⟩ := lookupField_isSome_of_any acc k h
    rw [show (fun p => if p.1 = (k, v).1 then (p.1, (k, v).2) else p) =
        (fun p : String × JsVal => if p.1 = k then (p.1, v) else p) from rfl,
      lookupField_map_setval, hw]
    rfl
  · rw [if_neg h, lookupField_append_single,
      lookupField_of_not_mem acc k (not_mem_keys_of_not_any acc k h),
      if_pos rfl]

theorem lookupField_setKey_other (acc : List (String × JsVal)) (k0 : String)
    (v : JsVal) (k : String) (h : k0 ≠ k) :
    lookupField (setKey acc (k0, v)) k = lookupField acc k := by
  unfold setKey
  by_cases ha : (acc.any fun p => decide (p.1 = k0)) = true
  · rw [if_pos ha]
    rw [show (fun p => if p.1 = (k0, v).1 then (p.1, (k0, v).2) else p) =
        (fun p : String × JsVal => if p.1 = k0 then (p.1, v) else p) from rfl]
    exact lookupField_map_setval_ne acc k0 v k h
  · rw [if_neg ha, lookupField_append_single]
    cases hl : lookupField acc k with
    | some w => rfl
    | none => simp [if_neg h]

theorem lookupField_foldl_setKey_none (fs : List (String × JsVal))
    (k : String) (h : lookupField fs k = none) :
    ∀ acc, lookupField (fs.foldl setKey acc) k = lookupField acc k := by
  induction fs with
  | nil => intro acc; rfl
  | cons hd tl ih =>
    intro acc
    obtain ⟨k1, v1⟩ := hd
    rw [lookupField_cons] at h
    by_cases hk : k1 = k
    · rw [if_pos hk] at h; exact absurd h (by simp)
    · rw [if_neg hk] at h
      rw [List.foldl_cons, ih h (setKey acc (k1, v1))]
      exact lookupField_setKey_other acc k1 v1 k hk

theorem lookupField_foldl_setKey_some (fs : List (String × JsVal))
    (k : String) (w : JsVal) (hnd : (fs.map Prod.fst).Nodup)
    (h : lookupField fs k = some w) :
    ∀ acc, lookupField (fs.foldl setKey acc) k = some w := by
  induction fs with
  | nil => intro acc; simp [lookupField] at h
  | cons hd tl ih =>
    intro acc
    obtain ⟨k1, v1⟩ := hd
    simp only [List.map_cons, List.nodup_cons] at hnd
    rw [lookupField_cons] at h
    by_cases hk : k1 = k
    · rw [if_pos hk] at h
      have htl : lookupField tl k = none :=
        lookupField_of_not_mem tl k (hk ▸ hnd.1)
      rw [List.foldl_cons, lookupField_foldl_setKey_none tl k htl]
      subst hk
      rw [lookupField_setKey_same acc k1 v1]
      exact h
    · rw [if_neg hk] at h
      rw [List.foldl_cons]
      exact ih hnd.2 h (setKey acc (k1, v1))

/-- A mapping whose path finds no value contributes nothing to the
extraction fold. -/
theorem extractStep_of_missing (d : JsVal) (outputs : List (String × JsVal))
    (m : OutputMapping) (h : getValueByPath d m.jsonPath = none) :
    extractStep d outputs m = outputs := by
  unfold extractStep
  by_cases hj : m.jsonPath = "" <;> simp [hj, h]

/-- Any run of the retry loop that may still execute an attempt (or that
already holds one) returns both history fields, with
`attempts.length = retriesUsed + 1` and a nonempty history. -/
theorem executeWebhookLoop_attempts (retry : RetryConfig)
    (single : Nat → SingleResult) :
    ∀ (fuel attempt : Nat) (acc : List AttemptRecord)
      (last : Option SingleResult),
      acc.length = attempt → 1 ≤ fuel + attempt →
      ∃ l n,
        (executeWebhookLoop retry single fuel attempt acc last).attempts = some l ∧
        (executeWebhookLoop retry single fuel attempt acc last).retriesUsed = some n ∧
        l.length = n + 1 ∧ l ≠ [] := by
  intro fuel
  induction fuel with
  | zero =>
    intro attempt acc last hlen hpos
    refine ⟨acc, acc.length - 1, rfl, rfl, by omega, ?_⟩
    have : 0 < acc.length := by omega
    exact List.ne_nil_of_length_pos this
  | succ fuel ih =>
    intro attempt acc last hlen hpos
    simp only [executeWebhookLoop]
    by_cases hs : (single attempt).success = true
    · simp only [hs, if_true]
      exact ⟨acc ++ [mkAttemptRecord attempt (single attempt)], attempt, rfl,
        rfl, by simp [hlen], by simp⟩
    · simp only [hs, if_false]
      by_cases hr :
          (decide (attempt < retry.maxRetries) &&
            isRetryable (single attempt) retry) = true
      · simp only [hr, if_true]
        exact ih (attempt + 1)
          (acc ++ [mkAttemptRecord attempt (single attempt)])
          (some (single attempt)) (by simp [hlen]) (by omega)
      · simp only [hr, if_false]
        refine ⟨acc ++ [mkAttemptRecord attempt (single attempt)],
          (acc ++ [mkAttemptRecord attempt (single attempt)]).length - 1,
          rfl, rfl, by simp, by simp⟩

/-- A run of the retry loop in which every attempt fails with a retryable
`error` outcome uses the whole budget: `maxRetries + 1` attempts,
`retriesUsed = maxRetries`, final status `error`. -/
theorem executeWebhookLoop_all_error (retry : RetryConfig)
    (single : Nat → SingleResult)
    (hfail : ∀ n, (single n).success = false)
    (hretry : ∀ n, isRetryable (single n) retry = true)
    (hst : ∀ n, (single n).status = RStatus.error) :
    ∀ (fuel attempt : Nat) (acc : List AttemptRecord)
      (last : Option SingleResult),
      acc.length = attempt → fuel + attempt = retry.maxRetries + 1 →
      attempt ≤ retry.maxRetries →
      (executeWebhookLoop retry single fuel attempt acc last).status = RStatus.error ∧
      (executeWebhookLoop retry single fuel attempt acc last).retriesUsed =
        some retry.maxRetries ∧
      ((executeWebhookLoop retry single fuel attempt acc last).attempts.getD []).length =
        retry.maxRetries + 1 ∧
      (executeWebhookLoop retry single fuel attempt acc last).success = false := by
  intro fuel
  induction fuel with
  | zero =>
    intro attempt acc last hlen hfuel hle
    omega
  | succ fuel ih =>
    intro attempt acc last hlen hfuel hle
    simp only [executeWebhookLoop]
    have hs : ¬(single attempt).success = true := by simp [hfail attempt]
    simp only [hs, if_false]
    by_cases hlt : attempt < retry.maxRetries
    · have hr : (decide (attempt < retry.maxRetries) &&
          isRetryable (single attempt) retry) = true := by
        simp [hlt, hretry attempt]
      simp only [hr, if_true]
      exact ih (attempt + 1)
        (acc ++ [mkAttemptRecord attempt (single attempt)])
        (some (single attempt)) (by simp [hlen]) (by omega) (by omega)
    · have heq : attempt = retry.maxRetries := by omega
      have hr : ¬(decide (attempt < retry.maxRetries) &&
          isRetryable (single attempt) retry) = true := by
        simp [hlt]
      simp only [hr, if_false]
      refine ⟨?_, ?_, ?_, ?_⟩
      · simp only [finalReturn, spreadSingle]
        exact hst attempt
      · simp only [finalReturn]
        simp [hlen, heq]
      · simp only [finalReturn]
        simp [hlen, heq]
      · simp only [finalReturn, spreadSingle]
        exact hfail attempt

/-- A single request whose axios outcome is an HTTP 503 response fails
with classification `error` and status code 503. -/
theorem executeSingleRequest_status503 (P : JsPlatform) (cfg : DispatchConfig)
    (ctx : JsVal) (timeout : Nat) (o : AxiosOutcome)
    (h : respStatus o = some 503) :
    (executeSingleRequest P cfg ctx timeout true o).success = false ∧
    (executeSingleRequest P cfg ctx timeout true o).status = RStatus.error ∧
    (executeSingleRequest P cfg ctx timeout true o).httpStatusCode = some 503 := by
  cases o with
  | response s d e =>
    simp only [respStatus, Option.some.injEq] at h
    subst h
    simp [executeSingleRequest, classifyAxios]
  | failure c m e => simp [respStatus] at h

/-- A result carrying HTTP status 503 is retryable whenever 503 is among
the configured retryable status codes. -/
theorem isRetryable_of_503 (r : SingleResult) (retry : RetryConfig)
    (h : r.httpStatusCode = some 503)
    (hc : retry.retryableStatusCodes.contains 503 = true) :
    isRetryable r retry = true := by
  have hm : 503 ∈ retry.retryableStatusCodes := by simpa using hc
  simp [isRetryable, h, hm]

/-! ## Claims -/

/-- C1: the claim says every IPv4 dotted-quad host in a private, loopback,
link-local, CGNAT, documentation, multicast or reserved range is rejected.
The code violates it: 100.108.0.1 lies in CGNAT 100.64.0.0/10 — the very
range the source comments on its pattern — yet the pattern alternative
`1[0-2][0-7]` skips second octets 108, 109, 118 and 119, so
`validateWebhookUrl` accepts the URL.  (Likewise 225.0.0.1 of multicast
224.0.0.0/4 and 241.0.0.1 of reserved 240.0.0.0/4 are accepted, their
patterns covering only a /8 slice of the commented /4.) -/
theorem validateWebhookUrl_accepts_cgnat_host :
    specBlockedIPv4Range 100 108 0 1 ∧
    validateWebhookUrlParsed
      (some ⟨"http:", ipv4String 100 108 0 1, "", ""⟩) = ⟨true, none⟩ := by
  exact ⟨by decide, rfl⟩

/-- C3: the claim says every http/https URL with an IPv6 loopback,
unique-local or link-local literal host is rejected.  The code violates it
for unique-local and link-local literals: Node's WHATWG parser serializes
an IPv6 hostname in brackets ("[fe80::1]"), and no `BLOCKED_IP_PATTERNS`
entry (`^fe80:`, `^fc00:`, `^::1$`) can match a bracketed string, so the
IPv6 pattern branch of lines 84-90 never fires; only the literal
"[::1]" of `BLOCKED_HOSTNAMES` is caught.  fe80::1 is link-local
(fe80::/10) and fc00::1 unique-local (fc00::/7), yet both validate. -/
theorem validateWebhookUrl_accepts_ipv6_linklocal :
    specIPv6LinkLocal "fe80::1" ∧
    validateWebhookUrlParsed (some ⟨"http:", "[fe80::1]", "", ""⟩) =
      ⟨true, none⟩ ∧
    validateWebhookUrlParsed (some ⟨"http:", "[fc00::1]", "", ""⟩) =
      ⟨true, none⟩ := by
  exact ⟨Or.inl (by decide), rfl, rfl⟩

/-- C2 counterexample: a dispatch with `maxRetries = 0` performs one HTTP
attempt (the response is classified and its status code returned), yet the
result of `executeWebhook` carries no `attempts` and no `retriesUsed`
field at all — `executeSingleRequest`'s result is returned bare — so
`attempts.length == retriesUsed + 1` fails there even though an attempt
was made. -/
theorem executeWebhook_maxRetriesZero_drops_attempts :
    (executeWebhook examplePlatform exampleConfig .null 30000
      { maxRetries := some 0 } (fun _ => .response 200 .null 5)).attempts =
      none ∧
    (executeWebhook examplePlatform exampleConfig .null 30000
      { maxRetries := some 0 } (fun _ => .response 200 .null 5)).retriesUsed =
      none ∧
    (executeWebhook examplePlatform exampleConfig .null 30000
      { maxRetries := some 0 } (fun _ => .response 200 .null 5)).httpStatusCode =
      some 200 ∧
    (executeWebhook examplePlatform exampleConfig .null 30000
      { maxRetries := some 0 } (fun _ => .response 200 .null 5)).success =
      true := ⟨rfl, rfl, rfl, rfl⟩

/-- C2 (amended): when the merged retry policy has `maxRetries ≥ 1`, the
result of `executeWebhook` always carries both history fields with
`attempts.length = retriesUsed + 1` and a nonempty history whenever at
least one HTTP attempt was made (i.e. URL validation passed), and
`attempts = []` exactly when URL validation failed.  (With
`maxRetries = 0` the bare single-attempt result is returned instead,
carrying neither field — see the counterexample.) -/
theorem executeWebhook_attempts_invariant (P : JsPlatform)
    (cfg : DispatchConfig) (ctx : JsVal) (timeout : Nat) (ov : RetryOverride)
    (net : Nat → AxiosOutcome)
    (hmax : 1 ≤ (mergeRetryConfig ov).maxRetries) :
    ((validateWebhookUrl P.parseURL (processTemplate cfg.url ctx)).valid = false →
      (executeWebhook P cfg ctx timeout ov net).attempts = some [] ∧
      (executeWebhook P cfg ctx timeout ov net).retriesUsed = some 0) ∧
    ((validateWebhookUrl P.parseURL (processTemplate cfg.url ctx)).valid = true →
      (executeWebhook P cfg ctx timeout ov net).attempts.isSome = true ∧
      (executeWebhook P cfg ctx timeout ov net).retriesUsed.isSome = true ∧
      ((executeWebhook P cfg ctx timeout ov net).attempts.getD []).length =
        (executeWebhook P cfg ctx timeout ov net).retriesUsed.getD 0 + 1 ∧
      (executeWebhook P cfg ctx timeout ov net).attempts ≠ some []) := by
  constructor
  · intro hv
    simp [executeWebhook, hv]
  · intro hv
    have h0 : ¬(mergeRetryConfig ov).maxRetries = 0 := by omega
    simp only [executeWebhook, hv, Bool.not_true, Bool.false_eq_true,
      if_false, h0]
    obtain ⟨l, n, hl, hn, hlen, hne⟩ :=
      executeWebhookLoop_attempts (mergeRetryConfig ov)
        (fun n => executeSingleRequest P cfg ctx timeout true (net n))
        ((mergeRetryConfig ov).maxRetries + 1) 0 [] none rfl (by omega)
    rw [hl, hn]
    refine ⟨rfl, rfl, by simp [hlen], by simp [hne]⟩

/-- Witness for the amended C2 invariant at a concrete dispatch: default
policy (merged maxRetries 3), valid URL, a destination answering 200. -/
theorem executeWebhook_attempts_invariant_witness :
    ((validateWebhookUrl examplePlatform.parseURL
        (processTemplate exampleConfig.url .null)).valid = true →
      (executeWebhook examplePlatform exampleConfig .null 30000 {}
        (fun _ => .response 200 .null 5)).attempts.isSome = true ∧
      (executeWebhook examplePlatform exampleConfig .null 30000 {}
        (fun _ => .response 200 .null 5)).retriesUsed.isSome = true ∧
      ((executeWebhook examplePlatform exampleConfig .null 30000 {}
        (fun _ => .response 200 .null 5)).attempts.getD []).length =
        (executeWebhook examplePlatform exampleConfig .null 30000 {}
          (fun _ => .response 200 .null 5)).retriesUsed.getD 0 + 1 ∧
      (executeWebhook examplePlatform exampleConfig .null 30000 {}
        (fun _ => .response 200 .null 5)).attempts ≠ some []) ∧
    (validateWebhookUrl examplePlatform.parseURL
      (processTemplate exampleConfig.url .null)).valid = true :=
  ⟨(executeWebhook_attempts_invariant examplePlatform exampleConfig .null
      30000 {} (fun _ => .response 200 .null 5) (by decide)).2, rfl⟩

/-- C4: a destination answering HTTP 503 on every attempt, a merged policy
with `maxRetries = 3` whose retryable status codes include 503, and a URL
that validates: `executeWebhook` performs exactly 4 attempts and returns
`retriesUsed = 3` with final status `error` (`retriesUsed` counting the
attempts beyond the first actually executed). -/
theorem executeWebhook_four_attempts_on_503 (P : JsPlatform)
    (cfg : DispatchConfig) (ctx : JsVal) (timeout : Nat) (ov : RetryOverride)
    (net : Nat → AxiosOutcome)
    (hval : (validateWebhookUrl P.parseURL (processTemplate cfg.url ctx)).valid = true)
    (hmax : (mergeRetryConfig ov).maxRetries = 3)
    (hcode : (mergeRetryConfig ov).retryableStatusCodes.contains 503 = true)
    (hnet : ∀ n, respStatus (net n) = some 503) :
    (executeWebhook P cfg ctx timeout ov net).status = RStatus.error ∧
    (executeWebhook P cfg ctx timeout ov net).retriesUsed = some 3 ∧
    ((executeWebhook P cfg ctx timeout ov net).attempts.getD []).length = 4 ∧
    (executeWebhook P cfg ctx timeout ov net).success = false := by
  have h0 : ¬(mergeRetryConfig ov).maxRetries = 0 := by omega
  have hsingle := fun n =>
    executeSingleRequest_status503 P cfg ctx timeout (net n) (hnet n)
  have hloop :=
    executeWebhookLoop_all_error (mergeRetryConfig ov)
      (fun n => executeSingleRequest P cfg ctx timeout true (net n))
      (fun n => (hsingle n).1)
      (fun n => isRetryable_of_503 _ _ (hsingle n).2.2 hcode)
      (fun n => (hsingle n).2.1)
      ((mergeRetryConfig ov).maxRetries + 1) 0 [] none rfl (by omega)
      (by omega)
  rw [hmax] at hloop
  simp only [executeWebhook, hval, Bool.not_true, Bool.false_eq_true,
    if_false, h0, hmax]
  exact ⟨hloop.1, hloop.2.1, hloop.2.2.1, hloop.2.2.2⟩

/-- Witness for C4 at a concrete dispatch: default policy, valid URL,
destination answering 503 on every attempt. -/
theorem executeWebhook_four_attempts_on_503_witness :
    (executeWebhook examplePlatform exampleConfig .null 30000 {}
      (fun _ => .response 503 .null 5)).status = RStatus.error ∧
    (executeWebhook examplePlatform exampleConfig .null 30000 {}
      (fun _ => .response 503 .null 5)).retriesUsed = some 3 ∧
    ((executeWebhook examplePlatform exampleConfig .null 30000 {}
      (fun _ => .response 503 .null 5)).attempts.getD []).length = 4 ∧
    (executeWebhook examplePlatform exampleConfig .null 30000 {}
      (fun _ => .response 503 .null 5)).success = false :=
  executeWebhook_four_attempts_on_503 examplePlatform exampleConfig .null
    30000 {} (fun _ => .response 503 .null 5) rfl rfl rfl (fun _ => rfl)

/-- C5: the single-attempt executor never raises on an HTTP status — a
response is always classified — with `success = true` and status
`success` exactly when the code lies in [200, 300), status `error` on
every other code, and a rejection with error code ECONNABORTED (abort)
or a message containing "timeout" classified `timeout`.  The `hv`
hypothesis states that the executor reaches the HTTP call (validation
skipped, as when called from `executeWebhook`, or passing). -/
theorem executeSingleRequest_classification (P : JsPlatform)
    (cfg : DispatchConfig) (ctx : JsVal) (timeout : Nat)
    (skipValidation : Bool) (status : Nat) (d : JsVal) (e1 : Nat)
    (code : Option String) (msg : String) (e2 : Nat)
    (hv : skipValidation = true ∨
      (validateWebhookUrl P.parseURL (processTemplate cfg.url ctx)).valid = true) :
    ((executeSingleRequest P cfg ctx timeout skipValidation
        (.response status d e1)).success = true ∧
      (executeSingleRequest P cfg ctx timeout skipValidation
        (.response status d e1)).status = RStatus.success ↔
      200 ≤ status ∧ status < 300) ∧
    (¬(200 ≤ status ∧ status < 300) →
      (executeSingleRequest P cfg ctx timeout skipValidation
        (.response status d e1)).status = RStatus.error ∧
      (executeSingleRequest P cfg ctx timeout skipValidation
        (.response status d e1)).success = false) ∧
    ((code = some "ECONNABORTED" ∨ substrIn "timeout" msg = true) →
      (executeSingleRequest P cfg ctx timeout skipValidation
        (.failure code msg e2)).status = RStatus.timeout ∧
      (executeSingleRequest P cfg ctx timeout skipValidation
        (.failure code msg e2)).success = false) := by
  have hno : (!skipValidation &&
      !(validateWebhookUrl P.parseURL (processTemplate cfg.url ctx)).valid) =
      false := by
    rcases hv with h | h <;> simp [h]
  refine ⟨?_, ?_, ?_⟩
  · simp only [executeSingleRequest, hno, Bool.false_eq_true, if_false]
    by_cases h1 : 200 ≤ status <;> by_cases h2 : status < 300 <;>
      simp [classifyAxios, h1, h2]
  · intro hns
    simp only [executeSingleRequest, hno, Bool.false_eq_true, if_false]
    by_cases h1 : 200 ≤ status
    · have h2 : ¬status < 300 := fun h2 => hns ⟨h1, h2⟩
      simp [classifyAxios, h1, h2]
    · simp [classifyAxios, h1]
  · intro hto
    have hcond : (code = some "ECONNABORTED" || substrIn "timeout" msg) = true := by
      rcases hto with h | h <;> simp [h]
    simp only [executeSingleRequest, hno, Bool.false_eq_true, if_false]
    simp [classifyAxios, hcond]

/-- Witness for C5 at a concrete single request: validation skipped, a 503
response and an aborted request. -/
theorem executeSingleRequest_classification_witness :
    ((executeSingleRequest examplePlatform exampleConfig .null 30000 true
        (.response 503 .null 5)).success = true ∧
      (executeSingleRequest examplePlatform exampleConfig .null 30000 true
        (.response 503 .null 5)).status = RStatus.success ↔
      200 ≤ 503 ∧ 503 < 300) ∧
    (¬(200 ≤ 503 ∧ 503 < 300) →
      (executeSingleRequest examplePlatform exampleConfig .null 30000 true
        (.response 503 .null 5)).status = RStatus.error ∧
      (executeSingleRequest examplePlatform exampleConfig .null 30000 true
        (.response 503 .null 5)).success = false) ∧
    ((some "ECONNABORTED" = some "ECONNABORTED" ∨
        substrIn "timeout" "socket hang up" = true) →
      (executeSingleRequest examplePlatform exampleConfig .null 30000 true
        (.failure (some "ECONNABORTED") "socket hang up" 7)).status =
        RStatus.timeout ∧
      (executeSingleRequest examplePlatform exampleConfig .null 30000 true
        (.failure (some "ECONNABORTED") "socket hang up" 7)).success =
        false) :=
  executeSingleRequest_classification examplePlatform exampleConfig .null
    30000 true 503 .null 5 (some "ECONNABORTED") "socket hang up" 7
    (Or.inl rfl)

/-- C6 counterexample: the claim says the computed backoff delay always
lies within ±25% of the capped exponential value.  With
`initialDelayMs = 3` (so the capped value for the wait before the second
attempt is 3) and a jitter draw of 0.1, the jittered value 2.4 rounds to
2, which is strictly below 75% of 3 = 2.25 — `Math.round` can push the
delay outside the ±25% band. -/
theorem calculateBackoffDelay_outside_jitter_range :
    (0 ≤ (1 : ℚ) / 10 ∧ (1 : ℚ) / 10 < 1) ∧
    calculateBackoffDelay 0 exampleBackoffConfig (1 / 10) = 2 ∧
    (2 : ℚ) < 3 / 4 *
      min (exampleBackoffConfig.initialDelayMs *
        exampleBackoffConfig.backoffMultiplier ^ 0)
        exampleBackoffConfig.maxDelayMs := by
  refine ⟨⟨by norm_num, by norm_num⟩, ?_, ?_⟩
  · unfold calculateBackoffDelay exampleBackoffConfig
    norm_num
  · unfold exampleBackoffConfig
    norm_num

/-- C6 (amended): for the wait before the (k+1)-th attempt (the source
calls `calculateBackoffDelay (k-1)` there, k ≥ 1) and any jitter draw in
[0, 1), the computed delay lies within ±25% of
`min(initialDelayMs * backoffMultiplier^(k-1), maxDelayMs)` **up to the
half-millisecond slack of rounding to the nearest integer** — the
rounding can push the delay strictly outside the exact ±25% band (see the
counterexample), but never by more than 1/2. -/
theorem calculateBackoffDelay_bounds (config : RetryConfig) (k : Nat)
    (rand : ℚ) (hk : 1 ≤ k) (h0 : 0 ≤ rand) (h1 : rand < 1)
    (hi : 0 ≤ config.initialDelayMs) (hm : 0 ≤ config.maxDelayMs)
    (hb : 0 ≤ config.backoffMultiplier) :
    3 / 4 * min (config.initialDelayMs * config.backoffMultiplier ^ (k - 1))
        config.maxDelayMs - 1 / 2 ≤
      (calculateBackoffDelay (k - 1) config rand : ℚ) ∧
    (calculateBackoffDelay (k - 1) config rand : ℚ) ≤
      5 / 4 * min (config.initialDelayMs * config.backoffMultiplier ^ (k - 1))
        config.maxDelayMs + 1 / 2 := by
  have hc0 : 0 ≤ min (config.initialDelayMs *
      config.backoffMultiplier ^ (k - 1)) config.maxDelayMs :=
    le_min (mul_nonneg hi (pow_nonneg hb _)) hm
  unfold calculateBackoffDelay
  set c := min (config.initialDelayMs * config.backoffMultiplier ^ (k - 1))
    config.maxDelayMs with hc
  have hxl : 3 / 4 * c ≤ c + c * (1 / 4) * (rand * 2 - 1) := by nlinarith
  have hxu : c + c * (1 / 4) * (rand * 2 - 1) ≤ 5 / 4 * c := by nlinarith
  constructor
  · have hfl := Int.lt_floor_add_one (c + c * (1 / 4) * (rand * 2 - 1) + 1 / 2)
    linarith
  · have hfu := Int.floor_le (c + c * (1 / 4) * (rand * 2 - 1) + 1 / 2)
    linarith

/-- Witness for the amended C6 bounds at the default retry configuration,
k = 1 and jitter draw 1/2. -/
theorem calculateBackoffDelay_bounds_witness :
    3 / 4 * min (DEFAULT_RETRY_CONFIG.initialDelayMs *
        DEFAULT_RETRY_CONFIG.backoffMultiplier ^ (1 - 1))
        DEFAULT_RETRY_CONFIG.maxDelayMs - 1 / 2 ≤
      (calculateBackoffDelay (1 - 1) DEFAULT_RETRY_CONFIG (1 / 2) : ℚ) ∧
    (calculateBackoffDelay (1 - 1) DEFAULT_RETRY_CONFIG (1 / 2) : ℚ) ≤
      5 / 4 * min (DEFAULT_RETRY_CONFIG.initialDelayMs *
        DEFAULT_RETRY_CONFIG.backoffMultiplier ^ (1 - 1))
        DEFAULT_RETRY_CONFIG.maxDelayMs + 1 / 2 :=
  calculateBackoffDelay_bounds DEFAULT_RETRY_CONFIG 1 (1 / 2)
    (by norm_num) (by norm_num) (by norm_num)
    (by unfold DEFAULT_RETRY_CONFIG; norm_num)
    (by unfold DEFAULT_RETRY_CONFIG; norm_num)
    (by unfold DEFAULT_RETRY_CONFIG; norm_num)

/-- C7: template rendering resolves dotted placeholder paths against the
context — `processTemplate` renders exactly the tokenization of the
template, in which a placeholder whose dotted path is absent from the
context renders as the empty string without error — and on a malformed
template (failed compilation) `processTemplate` returns the original
template string unchanged instead of aborting.  Handlebars is not part of
the repository; its compilation/rendering is modelled from the spec. -/
theorem processTemplate_silent_miss_and_fallback (ctx : JsVal)
    (tmpl : String) (toks : List Tok) (p : String) :
    (tokenizeTemplate tmpl = .error () → processTemplate tmpl ctx = tmpl) ∧
    (tmpl ≠ "" → tokenizeTemplate tmpl = .ok toks →
      processTemplate tmpl ctx = renderToks toks ctx) ∧
    (lookupPathHB ctx (splitDot p) = none → renderTok ctx (Tok.ph p) = "") := by
  refine ⟨?_, ?_, ?_⟩
  · intro he
    unfold processTemplate
    by_cases h : tmpl = ""
    · simp [h]
    · simp [h, he]
  · intro hne hok
    unfold processTemplate
    simp [hne, hok]
  · intro hmiss
    simp [renderTok, hmiss]

/-- Witness for C7: the malformed template `\x7b\x7bunclosed` comes back
unchanged, the placeholder `missing.path` renders empty against the
example context, and a placeholder-free template renders as its literal
token. -/
theorem processTemplate_silent_miss_and_fallback_witness :
    processTemplate "\x7b\x7bunclosed" exampleContext = "\x7b\x7bunclosed" ∧
    renderTok exampleContext (Tok.ph "missing.path") = "" ∧
    processTemplate "hook" exampleContext =
      renderToks [Tok.lit "hook"] exampleContext :=
  ⟨(processTemplate_silent_miss_and_fallback exampleContext "\x7b\x7bunclosed"
      [] "missing.path").1 rfl,
   (processTemplate_silent_miss_and_fallback exampleContext "\x7b\x7bunclosed"
      [] "missing.path").2.2 rfl,
   (processTemplate_silent_miss_and_fallback exampleContext "hook"
      [Tok.lit "hook"] "missing.path").2.1 (by decide) rfl⟩

/-- C8: a GET request whose resolved body is structured (JS
`typeof 'object'` after rendering and JSON-parsing) carries no HTTP body —
`data` stays null — and the body is spread over the declared query
parameters: the built params are exactly the JS spread
`\x7b ...params, ...processedBody \x7d`, so every key of an object body
appears among the query parameters with the body's value. -/
theorem buildRequest_get_body_to_params (P : JsPlatform)
    (cfg : DispatchConfig) (ctx : JsVal) (b : JsVal)
    (bodyFields : List (String × JsVal)) (k : String) (w : JsVal)
    (hb : cfg.body = some b) (htr : jsTruthy b = true)
    (hm : jsMethod cfg = "GET")
    (hobj : jsTypeofIsObject (resolveProcessedBody P b ctx) = true) :
    (buildRequest P cfg ctx).data = none ∧
    (buildRequest P cfg ctx).params =
      some (.obj (objSpreadVal (spreadOpt [] (renderedParams cfg ctx))
        (resolveProcessedBody P b ctx))) ∧
    (resolveProcessedBody P b ctx = .obj bodyFields →
      (bodyFields.map Prod.fst).Nodup → lookupField bodyFields k = some w →
      paramsGet (buildRequest P cfg ctx) k = some w) := by
  have hbr : (buildRequest P cfg ctx).data = none ∧
      (buildRequest P cfg ctx).params =
        some (.obj (objSpreadVal (spreadOpt [] (renderedParams cfg ctx))
          (resolveProcessedBody P b ctx))) := by
    unfold buildRequest
    simp only [hb, htr, hm, hobj, if_true]
    simp
  refine ⟨hbr.1, hbr.2, ?_⟩
  intro hpb hnd hlk
  unfold paramsGet
  rw [hbr.2, hpb]
  show lookupField (objSpreadVal (spreadOpt [] (renderedParams cfg ctx))
    (.obj bodyFields)) k = some w
  unfold objSpreadVal
  exact lookupField_foldl_setKey_some bodyFields k w hnd hlk _

/-- Witness for C8 on the example GET configuration: no body is sent and
the body keys "k" and "b2" land in the query parameters. -/
theorem buildRequest_get_body_to_params_witness :
    (buildRequest examplePlatform exampleGetConfig .null).data = none ∧
    paramsGet (buildRequest examplePlatform exampleGetConfig .null) "b2" =
      some (JsVal.num 2) :=
  ⟨(buildRequest_get_body_to_params examplePlatform exampleGetConfig .null
      (.obj [("k", .str "bodyv"), ("b2", .num 2)])
      [("k", .str "bodyv"), ("b2", .num 2)] "b2" (.num 2)
      rfl rfl rfl rfl).1,
   (buildRequest_get_body_to_params examplePlatform exampleGetConfig .null
      (.obj [("k", .str "bodyv"), ("b2", .num 2)])
      [("k", .str "bodyv"), ("b2", .num 2)] "b2" (.num 2)
      rfl rfl rfl rfl).2.2 rfl (by decide) rfl⟩

/-- C9: extracting `user.tags[0]` as `first_tag` from
`\x7b user: \x7b tags: ["a","b"] \x7d \x7d` yields
`\x7b first_tag: "a" \x7d`; and a mapping whose path has no value at some
segment is omitted from the output without error, the remaining mappings
being extracted exactly as if it were absent. -/
theorem extractOutputFields_missing_path_omitted (d : JsVal)
    (resp : ExtractResponse) (ms1 ms2 : List OutputMapping)
    (m : OutputMapping) (hd : resp.data = some d)
    (hmiss : getValueByPath d m.jsonPath = none) :
    extractOutputFields resp (ms1 ++ m :: ms2) =
      extractOutputFields resp (ms1 ++ ms2) ∧
    extractOutputFields exampleExtractResponse
      [⟨"first_tag", "user.tags[0]"⟩] = [("first_tag", JsVal.str "a")] := by
  refine ⟨?_, rfl⟩
  unfold extractOutputFields
  rw [hd]
  by_cases ht : jsTruthy d = true
  · simp only [ht, if_true]
    rw [List.foldl_append, List.foldl_append, List.foldl_cons,
      extractStep_of_missing d _ m hmiss]
  · simp [ht]

/-- Witness for C9: dropping the dead mapping `x : a.b.c` (the value at
"a" is a number, so segment "b" finds nothing) leaves the extraction of
the remaining mapping untouched. -/
theorem extractOutputFields_missing_path_omitted_witness :
    extractOutputFields ⟨some (.obj [("a", .num 1)])⟩
      ([⟨"first", "a"⟩] ++ ⟨"x", "a.b.c"⟩ :: []) =
      extractOutputFields ⟨some (.obj [("a", .num 1)])⟩ ([⟨"first", "a"⟩] ++ []) ∧
    extractOutputFields exampleExtractResponse
      [⟨"first_tag", "user.tags[0]"⟩] = [("first_tag", JsVal.str "a")] :=
  extractOutputFields_missing_path_omitted (.obj [("a", .num 1)])
    ⟨some (.obj [("a", .num 1)])⟩ [⟨"first", "a"⟩] [] ⟨"x", "a.b.c"⟩ rfl rfl

/-- C10: on a GET request with a structured object body, a key present in
both the rendered declared params and the body reads back the body's
value from the merged query parameters — the body spread comes second in
`\x7b ...params, ...processedBody \x7d`, so the body wins the collision. -/
theorem buildRequest_get_body_overwrites_params (P : JsPlatform)
    (cfg : DispatchConfig) (ctx : JsVal) (b : JsVal)
    (bodyFields dFields : List (String × JsVal)) (k : String) (v w : JsVal)
    (hb : cfg.body = some b) (htr : jsTruthy b = true)
    (hm : jsMethod cfg = "GET")
    (hpb : resolveProcessedBody P b ctx = .obj bodyFields)
    (hnd : (bodyFields.map Prod.fst).Nodup)
    (hdp : renderedParams cfg ctx = some (.obj dFields))
    (hdk : lookupField dFields k = some v)
    (hbk : lookupField bodyFields k = some w) :
    paramsGet (buildRequest P cfg ctx) k = some w := by
  have hobj : jsTypeofIsObject (resolveProcessedBody P b ctx) = true := by
    rw [hpb]; rfl
  have hbr : (buildRequest P cfg ctx).params =
      some (.obj (objSpreadVal (spreadOpt [] (renderedParams cfg ctx))
        (resolveProcessedBody P b ctx))) := by
    unfold buildRequest
    simp only [hb, htr, hm, hobj, if_true]
    simp
  unfold paramsGet
  rw [hbr, hpb]
  show lookupField (objSpreadVal (spreadOpt [] (renderedParams cfg ctx))
    (.obj bodyFields)) k = some w
  unfold objSpreadVal
  exact lookupField_foldl_setKey_some bodyFields k w hnd hbk _

/-- Witness for C10 on the example GET configuration: "k" maps to "paramv"
among the declared params and to "bodyv" in the body; the merged query
parameters carry "bodyv". -/
theorem buildRequest_get_body_overwrites_params_witness :
    paramsGet (buildRequest examplePlatform exampleGetConfig .null) "k" =
      some (JsVal.str "bodyv") :=
  buildRequest_get_body_overwrites_params examplePlatform exampleGetConfig
    .null (.obj [("k", .str "bodyv"), ("b2", .num 2)])
    [("k", .str "bodyv"), ("b2", .num 2)]
    [("k", .str "paramv"), ("p1", .num 1)] "k" (.str "paramv") (.str "bodyv")
    rfl rfl rfl rfl (by decide) rfl rfl rfl
